import Mathlib

/-!
# Webhook relay (`api/webhook/index.js`)

A shallow embedding of the Web PubSub webhook function and of the three
handlers it dispatches to, together with the callbacks that `handleMessage`
registers on every upstream `WebSocket` it constructs.

* `clientMap` is the module-level `Map`; it is embedded as an association
  list in insertion order with the `get` / `set` / `delete` of a JS `Map`.
* A `WebSocket` object is identified by its index in `State.sockets`, the
  list of every socket constructed so far. The record kept for a socket holds
  the `connectionId` captured by the closures of its callbacks and the
  socket's `readyState`.
* Calls that leave the module (`openaiWs.send`, `openaiWs.close`,
  `serviceClient.sendToConnection`) are recorded, in call order, in the state;
  `delivered` keeps the `send` calls that the transport took for transmission.
* A JS exception (a rejected promise for the `async` functions) is the
  `threw` flag of a `Result`.
-/

namespace Webhook

/-- The value read from `event.data.connectionId`: a string, or `none` when the
property is `undefined`. Any such value is a valid `Map` key. -/
abbrev ConnectionId := Option String

/-- The value read from `event.data.message`, `none` when it is `undefined`. -/
abbrev Payload := Option String

/-- The `readyState` of a `WebSocket`: CONNECTING, OPEN, CLOSING, CLOSED. -/
inductive ReadyState where
  | connecting
  | opened
  | closing
  | closed
  deriving DecidableEq

/-- The `data` object of an inbound event. -/
structure Data where
  connectionId : ConnectionId
  message : Payload
  deriving DecidableEq

/-- The request body `req.body` once it is an object: `type` is `none` when the
property is missing, `data` is `none` when the property is missing. -/
structure Event where
  type : Option String
  data : Option Data
  deriving DecidableEq

/-- The request handed to the function; `body` is `none` when it is absent. -/
structure Request where
  body : Option Event
  deriving DecidableEq

/-- The object assigned to `context.res`. -/
structure Response where
  status : Nat
  body : String
  deriving DecidableEq

/-- What is kept for one constructed `WebSocket`: the `connectionId` its
callbacks closed over, and its `readyState`. -/
structure Socket where
  connectionId : ConnectionId
  readyState : ReadyState
  deriving DecidableEq

/-- One `serviceClient.sendToConnection(connectionId, data, { contentType })` call. -/
structure FabricSend where
  connectionId : ConnectionId
  data : String
  contentType : String
  deriving DecidableEq

/-- The module state and the record of outbound calls. -/
structure State where
  clientMap : List (ConnectionId × Nat)
  sockets : List Socket
  sendCalls : List (Nat × Payload)
  delivered : List (Nat × Payload)
  closeCalls : List Nat
  fabricCalls : List FabricSend
  deriving DecidableEq

/-- The state when the module is loaded: `new Map()`, no socket constructed. -/
def State.init : State :=
  { clientMap := [], sockets := [], sendCalls := [], delivered := [], closeCalls := [],
    fabricCalls := [] }

/-- The outcome of running a handler or a callback. -/
structure Result where
  state : State
  threw : Bool
  deriving DecidableEq

/-- The three handlers of the module. -/
inductive Handler where
  | handleConnection
  | handleDisconnection
  | handleMessage
  deriving DecidableEq

/-- The outcome of one invocation of the exported function: `context.res`
(`none` when it was never assigned), whether the returned promise rejected,
the handlers that were invoked, and the state afterwards. -/
structure Outcome where
  res : Option Response
  threw : Bool
  invoked : List Handler
  state : State
  deriving DecidableEq

/-- What the module does not decide. For the `ws` transport: whether `send`
throws for a socket in a given `readyState`, and whether a `send` that does
not throw is transmitted. For the process settings: whether
`new WebPubSubServiceClient(connectionString, hubName)` throws, as it does when
`AZURE_WEB_PUBSUB_CONNECTION_STRING` is absent. -/
structure Env where
  sendThrows : ReadyState → Bool
  sendDelivers : ReadyState → Bool
  clientThrows : Bool

/-- The `ws` library with the settings present: `send` throws `WebSocket is not
open: readyState 0 (CONNECTING)` on a socket whose handshake has not completed,
transmits on an OPEN socket and drops the data on a CLOSING or CLOSED one; the
service client is constructed without a fault. -/
def wsEnv : Env :=
  { sendThrows := fun s => decide (s = ReadyState.connecting),
    sendDelivers := fun s => decide (s = ReadyState.opened),
    clientThrows := false }

/-- Lookup, as `Map.prototype.get`. -/
def mapGet : List (ConnectionId × Nat) → ConnectionId → Option Nat
  | [], _ => none
  | (k, v) :: rest, key => if k = key then some v else mapGet rest key

/-- Insertion, as `Map.prototype.set`: an existing key keeps its place and takes the new
value, a new key is appended. -/
def mapSet : List (ConnectionId × Nat) → ConnectionId → Nat → List (ConnectionId × Nat)
  | [], key, v => [(key, v)]
  | (k, w) :: rest, key, v =>
    if k = key then (key, v) :: rest else (k, w) :: mapSet rest key v

/-- Removal, as `Map.prototype.delete`. -/
def mapDelete (m : List (ConnectionId × Nat)) (key : ConnectionId) : List (ConnectionId × Nat) :=
  m.filter (fun p => decide (p.1 ≠ key))

/-- JS truthiness of the `type` property: `undefined` and the empty string are falsy. -/
def truthy : Option String → Bool
  | none => false
  | some s => decide (s ≠ "")

/-- The `readyState` of socket `ws`. -/
def readyStateOf (st : State) (ws : Nat) : ReadyState :=
  match st.sockets.get? ws with
  | some s => s.readyState
  | none => ReadyState.closed

/-- Replace the `readyState` of socket `ws`. -/
def setReadyState (st : State) (ws : Nat) (r : ReadyState) : State :=
  { st with sockets := List.modify (fun s => { s with readyState := r }) ws st.sockets }

/-- The call `openaiWs.send(payload)`: the call is recorded; it throws when the
transport refuses a send in the socket's current `readyState`, and the payload
is delivered to the upstream only when the call does not throw and the
transport transmits in that `readyState`. -/
def wsSend (env : Env) (ws : Nat) (payload : Payload) (st : State) : Result :=
  { state := { st with
      sendCalls := st.sendCalls ++ [(ws, payload)],
      delivered :=
        if !env.sendThrows (readyStateOf st ws) && env.sendDelivers (readyStateOf st ws) then
          st.delivered ++ [(ws, payload)]
        else st.delivered },
    threw := env.sendThrows (readyStateOf st ws) }

/-- The call `openaiWs.close()`: the call is recorded and a socket that is CONNECTING or
OPEN becomes CLOSING. It does not throw. -/
def wsClose (ws : Nat) (st : State) : State :=
  let st1 := { st with closeCalls := st.closeCalls ++ [ws] }
  match readyStateOf st ws with
  | ReadyState.connecting => setReadyState st1 ws ReadyState.closing
  | ReadyState.opened => setReadyState st1 ws ReadyState.closing
  | _ => st1

/-- The call `serviceClient.sendToConnection(connectionId, data, { contentType })`: the
call is recorded; `fails` says whether the returned promise rejects. -/
def sendToConnection (fails : Bool) (connectionId : ConnectionId) (data : String)
    (contentType : String) (st : State) : Result :=
  { state := { st with fabricCalls := st.fabricCalls ++ [FabricSend.mk connectionId data contentType] },
    threw := fails }

/-- The string `JSON.stringify(initialEvent)` of the `open` callback. -/
def initialEvent : String :=
  "\x7b\"type\":\"response.create\",\"response\":\x7b\"modalities\":[\"text\",\"audio\"],\"instructions\":\"Please assist the user.\"\x7d\x7d"

/-- Handler `handleConnection`: reads `event.data.connectionId` and logs. -/
def handleConnection (event : Event) (st : State) : Result :=
  match event.data with
  | none => { state := st, threw := true }
  | some _ => { state := st, threw := false }

/-- Handler `handleDisconnection`: closes and unregisters the socket stored for the
event's connection id, when there is one. -/
def handleDisconnection (event : Event) (st : State) : Result :=
  match event.data with
  | none => { state := st, threw := true }
  | some d =>
    let connectionId := d.connectionId
    match mapGet st.clientMap connectionId with
    | some openaiWs =>
      let st1 := wsClose openaiWs st
      { state := { st1 with clientMap := mapDelete st1.clientMap connectionId }, threw := false }
    | none => { state := st, threw := false }

/-- Handler `handleMessage`: looks the connection id up in `clientMap`; when nothing is
stored, constructs a socket (CONNECTING), registers the four callbacks and
stores it; then sends the message on the socket. -/
def handleMessage (env : Env) (event : Event) (st : State) : Result :=
  match event.data with
  | none => { state := st, threw := true }
  | some d =>
    let connectionId := d.connectionId
    let message := d.message
    match mapGet st.clientMap connectionId with
    | some openaiWs => wsSend env openaiWs message st
    | none =>
      let openaiWs := st.sockets.length
      let st1 := { st with sockets := st.sockets ++ [Socket.mk connectionId ReadyState.connecting] }
      let st2 := { st1 with clientMap := mapSet st1.clientMap connectionId openaiWs }
      wsSend env openaiWs message st2

/-- The `open` callback of socket `ws`: sends the initial `response.create` event. -/
def onOpen (env : Env) (ws : Nat) (st : State) : Result :=
  wsSend env ws (some initialEvent) st

/-- The `message` callback of socket `ws`: relays `data` to the connection id
the callback closed over; a rejection is caught and logged. -/
def onMessage (fails : Bool) (ws : Nat) (data : String) (st : State) : Result :=
  match st.sockets.get? ws with
  | none => { state := st, threw := false }
  | some s =>
    let r := sendToConnection fails s.connectionId data "application/json" st
    if r.threw then { state := r.state, threw := false } else r

/-- The `close` callback of socket `ws`: deletes the closed-over connection id. -/
def onClose (ws : Nat) (st : State) : Result :=
  match st.sockets.get? ws with
  | none => { state := st, threw := false }
  | some s => { state := { st with clientMap := mapDelete st.clientMap s.connectionId }, threw := false }

/-- The `error` callback of socket `ws`: deletes the closed-over connection id. -/
def onError (ws : Nat) (st : State) : Result :=
  match st.sockets.get? ws with
  | none => { state := st, threw := false }
  | some s => { state := { st with clientMap := mapDelete st.clientMap s.connectionId }, threw := false }

/-- The response and the promise state once the `switch` has run a handler. -/
def afterHandler (r : Result) (invoked : List Handler) : Outcome :=
  if r.threw then
    { res := none, threw := true, invoked := invoked, state := r.state }
  else
    { res := some ⟨200, "Event processed."⟩, threw := false, invoked := invoked, state := r.state }

/-- The exported function: the guard on the body and its `type`, then the
construction of the `WebPubSubServiceClient` (outside any `try`, so a fault
there rejects the promise before `context.res` is assigned), then the `switch`
on the `type`. -/
def webhook (env : Env) (req : Request) (st : State) : Outcome :=
  match req.body with
  | none => { res := some ⟨400, "Invalid event."⟩, threw := false, invoked := [], state := st }
  | some event =>
    if !truthy event.type then
      { res := some ⟨400, "Invalid event."⟩, threw := false, invoked := [], state := st }
    else if env.clientThrows then
      { res := none, threw := true, invoked := [], state := st }
    else if event.type = some "webPubSub.connection" then
      afterHandler (handleConnection event st) [Handler.handleConnection]
    else if event.type = some "webPubSub.disconnected" then
      afterHandler (handleDisconnection event st) [Handler.handleDisconnection]
    else if event.type = some "webPubSub.message" then
      afterHandler (handleMessage env event st) [Handler.handleMessage]
    else
      { res := some ⟨200, "Event processed."⟩, threw := false, invoked := [], state := st }

/-- A notification that the `ws` transport delivers for a socket. -/
inductive SocketEvent where
  | opened
  | message (data : String) (fails : Bool)
  | close
  | error
  deriving DecidableEq

/-- Delivery of a socket notification: the transport moves the socket to the
`readyState` of the notification and runs the registered callback. `open` is
only emitted for a CONNECTING socket, nothing is emitted for a CLOSED one. -/
def notify (env : Env) (ws : Nat) (e : SocketEvent) (st : State) : Result :=
  match e with
  | SocketEvent.opened =>
    if readyStateOf st ws = ReadyState.connecting then
      onOpen env ws (setReadyState st ws ReadyState.opened)
    else { state := st, threw := false }
  | SocketEvent.message data fails =>
    if readyStateOf st ws = ReadyState.closed then { state := st, threw := false }
    else onMessage fails ws data st
  | SocketEvent.close =>
    if readyStateOf st ws = ReadyState.closed then { state := st, threw := false }
    else onClose ws (setReadyState st ws ReadyState.closed)
  | SocketEvent.error =>
    if readyStateOf st ws = ReadyState.closed then { state := st, threw := false }
    else onError ws (setReadyState st ws ReadyState.closing)

/-- One thing that happens to the module: a webhook invocation or a socket notification. -/
inductive Input where
  | request (req : Request)
  | socket (ws : Nat) (e : SocketEvent)
  deriving DecidableEq

/-- The state after one input has been handled to completion. -/
def step (env : Env) (st : State) (i : Input) : State :=
  match i with
  | Input.request req => (webhook env req st).state
  | Input.socket ws e => (notify env ws e st).state

/-- The state after a sequence of inputs, each handled to completion in turn. -/
def run (env : Env) (inputs : List Input) (st : State) : State :=
  inputs.foldl (step env) st

/-- A `webPubSub.message` event for `c` carrying `m`. -/
def messageEvent (c : ConnectionId) (m : Payload) : Event :=
  { type := some "webPubSub.message", data := some { connectionId := c, message := m } }

/-- A `webPubSub.disconnected` event for `c`. -/
def disconnectedEvent (c : ConnectionId) : Event :=
  { type := some "webPubSub.disconnected", data := some { connectionId := c, message := none } }

/-- The state after `handleMessage` has handled, one after another, a message
event for `c` for each payload of `ms`. -/
def runMessages (env : Env) (c : ConnectionId) (ms : List Payload) (st : State) : State :=
  ms.foldl (fun s m => (handleMessage env (messageEvent c m) s).state) st

/-- The registry invariant of the data model: every constructed socket is the
entry stored under its connection id exactly when it is CONNECTING or OPEN. -/
def registryInvariant (st : State) : Bool :=
  (List.range st.sockets.length).all (fun ws =>
    match st.sockets.get? ws with
    | none => true
    | some s =>
      decide (mapGet st.clientMap s.connectionId = some ws) ==
        (decide (s.readyState = ReadyState.connecting) || decide (s.readyState = ReadyState.opened)))

/-- The request whose body is `event`. -/
def requestOf (event : Event) : Request :=
  { body := some event }

/-- A `webPubSub.connection` event whose `data` object has no `connectionId`. -/
def connectionEventNoId : Event :=
  { type := some "webPubSub.connection", data := some { connectionId := none, message := none } }

/-- An event whose `type` property is the empty string. -/
def emptyTypeEvent : Event :=
  { type := some "", data := some { connectionId := some "A", message := some "hello" } }

/-- Trace for client "A": first message, upstream opens, client disconnects, a
further message for "A" arrives, and then the first socket reports its close. -/
def staleCloseTrace : List Input :=
  [ Input.request (requestOf (messageEvent (some "A") (some "hello"))),
    Input.socket 0 SocketEvent.opened,
    Input.request (requestOf (disconnectedEvent (some "A"))),
    Input.request (requestOf (messageEvent (some "A") (some "again"))),
    Input.socket 0 SocketEvent.close ]

/-- Trace for client "A" without any disconnected event: first message, the
socket reports an `error`, second message. -/
def errorBetweenTrace : List Input :=
  [ Input.request (requestOf (messageEvent (some "A") (some "hello"))),
    Input.socket 0 SocketEvent.error,
    Input.request (requestOf (messageEvent (some "A") (some "again"))) ]

/-- Trace for client "A" in which the upstream opens: first message, the socket
reports `open`, second message. -/
def openBetweenTrace : List Input :=
  [ Input.request (requestOf (messageEvent (some "A") (some "hello"))),
    Input.socket 0 SocketEvent.opened,
    Input.request (requestOf (messageEvent (some "A") (some "again"))) ]

/-- The connection ids that the sockets constructed so far were constructed
for, in order of construction. -/
def socketIds (st : State) : List ConnectionId :=
  st.sockets.map (fun s => s.connectionId)

/-- An input that does not tear down the session of `c`: any webhook request
but a `webPubSub.disconnected` event for `c`, and any socket notification but
a `close` or `error` of a socket constructed for `c`. -/
def allowed (c : ConnectionId) (st : State) : Input → Bool
  | Input.request req =>
    match req.body with
    | none => true
    | some event =>
      !(decide (event.type = some "webPubSub.disconnected") &&
        decide (event.data.map (fun d => d.connectionId) = some c))
  | Input.socket ws SocketEvent.close =>
    decide ((st.sockets.get? ws).map (fun s => s.connectionId) ≠ some c)
  | Input.socket ws SocketEvent.error =>
    decide ((st.sockets.get? ws).map (fun s => s.connectionId) ≠ some c)
  | Input.socket _ _ => true

/-- Every input of the sequence is `allowed` in the state it is handled in. -/
def quiet (env : Env) (c : ConnectionId) : State → List Input → Bool
  | _, [] => true
  | st, i :: rest => allowed c st i && quiet env c (step env st i) rest

/-! ## Lemmas on the registry -/

theorem mapGet_mapSet_self (m : List (ConnectionId × Nat)) (key : ConnectionId) (v : Nat) :
    mapGet (mapSet m key v) key = some v := by
  induction m with
  | nil => simp [mapSet, mapGet]
  | cons p rest ih =>
    obtain ⟨k, w⟩ := p
    by_cases hk : k = key
    · simp [mapSet, mapGet, hk]
    · simp [mapSet, mapGet, hk, ih]

theorem mapGet_mapSet_ne (m : List (ConnectionId × Nat)) (k key : ConnectionId) (v : Nat)
    (hne : k ≠ key) : mapGet (mapSet m k v) key = mapGet m key := by
  induction m with
  | nil => simp [mapSet, mapGet, hne]
  | cons p rest ih =>
    obtain ⟨k2, w⟩ := p
    by_cases hk : k2 = k
    · subst hk; simp [mapSet, mapGet, hne]
    · by_cases hk2 : k2 = key
      · subst hk2; simp [mapSet, mapGet, hk]
      · simp [mapSet, mapGet, hk, hk2, ih]

theorem mapGet_mapDelete_self (m : List (ConnectionId × Nat)) (key : ConnectionId) :
    mapGet (mapDelete m key) key = none := by
  induction m with
  | nil => simp [mapDelete, mapGet]
  | cons p rest ih =>
    obtain ⟨k, w⟩ := p
    by_cases hk : k = key
    · simpa [mapDelete, hk] using ih
    · simpa [mapDelete, mapGet, hk] using ih

theorem mapGet_mapDelete_ne (m : List (ConnectionId × Nat)) (k key : ConnectionId)
    (hne : k ≠ key) : mapGet (mapDelete m k) key = mapGet m key := by
  induction m with
  | nil => simp [mapDelete, mapGet]
  | cons p rest ih =>
    obtain ⟨k2, w⟩ := p
    by_cases hk : k2 = k
    · subst hk
      have : mapGet (mapDelete rest k2) key = mapGet rest key := ih
      simpa [mapDelete, mapGet, hne] using this
    · have : mapGet (mapDelete rest k) key = mapGet rest key := ih
      by_cases hk2 : k2 = key
      · subst hk2; simp [mapDelete, mapGet, hk]
      · simpa [mapDelete, mapGet, hk, hk2] using this

/-! ## Lemmas on the sockets -/

theorem modify_length_append {α : Type} (f : α → α) (l : List α) (x : α) :
    List.modify f l.length (l ++ [x]) = l ++ [f x] := by
  induction l with
  | nil => rfl
  | cons a rest ih => simpa [List.modify] using ih

theorem map_modify_of_fixed {α β : Type} (g : α → β) (f : α → α) (hf : ∀ a, g (f a) = g a)
    (l : List α) : ∀ n : Nat, (List.modify f n l).map g = l.map g := by
  induction l with
  | nil => intro n; cases n <;> rfl
  | cons a rest ih =>
    intro n
    cases n with
    | zero => simp [hf]
    | succ k => simpa using ih k

theorem setReadyState_socketIds (st : State) (ws : Nat) (r : ReadyState) :
    socketIds (setReadyState st ws r) = socketIds st := by
  exact map_modify_of_fixed (fun s : Socket => s.connectionId)
    (fun s => { s with readyState := r }) (fun _ => rfl) st.sockets ws

theorem setReadyState_get (st : State) (ws : Nat) (r : ReadyState) :
    ((setReadyState st ws r).sockets.get? ws).map (fun s => s.connectionId)
      = (st.sockets.get? ws).map (fun s => s.connectionId) := by
  have h := congrArg (fun l => l.get? ws) (setReadyState_socketIds st ws r)
  simpa [socketIds] using h

theorem wsClose_clientMap (ws : Nat) (st : State) :
    (wsClose ws st).clientMap = st.clientMap := by
  unfold wsClose
  cases readyStateOf st ws <;> rfl

theorem wsClose_closeCalls (ws : Nat) (st : State) :
    (wsClose ws st).closeCalls = st.closeCalls ++ [ws] := by
  unfold wsClose
  cases readyStateOf st ws <;> rfl

theorem wsClose_socketIds (ws : Nat) (st : State) :
    socketIds (wsClose ws st) = socketIds st := by
  unfold wsClose
  cases readyStateOf st ws <;> first | rfl | exact setReadyState_socketIds _ _ _

/-! ## Lemmas on `handleMessage` -/

/-- A message for a connection id that has an entry constructs nothing, leaves
the registry alone and calls `send` on the stored socket. -/
theorem handleMessage_of_entry (env : Env) (c : ConnectionId) (m : Payload) (ws : Nat)
    (st : State) (h : mapGet st.clientMap c = some ws) :
    (handleMessage env (messageEvent c m) st).state.sockets = st.sockets ∧
      (handleMessage env (messageEvent c m) st).state.clientMap = st.clientMap ∧
      (handleMessage env (messageEvent c m) st).state.sendCalls = st.sendCalls ++ [(ws, m)] := by
  simp [handleMessage, messageEvent, h, wsSend]

/-- The first message for a connection id without an entry constructs one
CONNECTING socket, stores it and calls `send` on it. -/
theorem handleMessage_of_no_entry (env : Env) (c : ConnectionId) (m : Payload) (st : State)
    (h : mapGet st.clientMap c = none) :
    (handleMessage env (messageEvent c m) st).state.sockets
        = st.sockets ++ [Socket.mk c ReadyState.connecting] ∧
      (handleMessage env (messageEvent c m) st).state.clientMap
        = mapSet st.clientMap c st.sockets.length ∧
      (handleMessage env (messageEvent c m) st).state.sendCalls
        = st.sendCalls ++ [(st.sockets.length, m)] := by
  simp [handleMessage, messageEvent, h, wsSend]

/-! ## Inputs that do not tear the session of `c` down -/

theorem handleMessage_keeps (env : Env) (c : ConnectionId) (n : Nat) (event : Event) (st : State)
    (h : mapGet st.clientMap c = some n) :
    mapGet (handleMessage env event st).state.clientMap c = some n ∧
      (socketIds (handleMessage env event st).state).count c = (socketIds st).count c := by
  cases hd : event.data with
  | none => simp [handleMessage, hd, h]
  | some d =>
    cases hg : mapGet st.clientMap d.connectionId with
    | some ws => simp [handleMessage, hd, hg, wsSend, h, socketIds]
    | none =>
      have hne : d.connectionId ≠ c := by
        intro hc
        rw [hc, h] at hg
        exact Option.noConfusion hg
      simp [handleMessage, hd, hg, wsSend, socketIds, mapGet_mapSet_ne _ _ _ _ hne, h,
        List.count_append, List.count_singleton, hne]

theorem handleDisconnection_keeps (c : ConnectionId) (n : Nat) (event : Event) (st : State)
    (h : mapGet st.clientMap c = some n)
    (hne : event.data.map (fun d => d.connectionId) ≠ some c) :
    mapGet (handleDisconnection event st).state.clientMap c = some n ∧
      (socketIds (handleDisconnection event st).state).count c = (socketIds st).count c := by
  cases hd : event.data with
  | none => simp [handleDisconnection, hd, h]
  | some d =>
    have hdc : d.connectionId ≠ c := by
      intro hc
      apply hne
      simp [hd, hc]
    cases hg : mapGet st.clientMap d.connectionId with
    | none => simp [handleDisconnection, hd, hg, h]
    | some ws =>
      have := congrArg (fun l => List.count c l) (wsClose_socketIds ws st)
      simp only [socketIds] at this
      simp [handleDisconnection, hd, hg, mapGet_mapDelete_ne _ _ _ hdc, wsClose_clientMap, h,
        socketIds, this]

theorem handleConnection_state (event : Event) (st : State) :
    (handleConnection event st).state = st := by
  unfold handleConnection
  cases event.data <;> rfl

theorem afterHandler_state (r : Result) (hs : List Handler) :
    (afterHandler r hs).state = r.state := by
  unfold afterHandler
  cases r.threw <;> rfl

theorem webhook_keeps (env : Env) (c : ConnectionId) (n : Nat) (req : Request) (st : State)
    (h : mapGet st.clientMap c = some n) (ha : allowed c st (Input.request req) = true) :
    mapGet (webhook env req st).state.clientMap c = some n ∧
      (socketIds (webhook env req st).state).count c = (socketIds st).count c := by
  unfold webhook
  cases hb : req.body with
  | none => exact ⟨h, rfl⟩
  | some event =>
    simp only []
    split
    · exact ⟨h, rfl⟩
    · split
      · exact ⟨h, rfl⟩
      · split
        · rw [afterHandler_state, handleConnection_state]; exact ⟨h, rfl⟩
        · split
          · rename_i ht
            rw [afterHandler_state]
            refine handleDisconnection_keeps c n event st h ?_
            intro hc
            simp [allowed, hb, ht, hc] at ha
          · split
            · rw [afterHandler_state]; exact handleMessage_keeps env c n event st h
            · exact ⟨h, rfl⟩

theorem onMessage_keeps (fails : Bool) (ws : Nat) (d : String) (st : State) :
    (onMessage fails ws d st).state.clientMap = st.clientMap ∧
      socketIds (onMessage fails ws d st).state = socketIds st := by
  unfold onMessage
  cases st.sockets.get? ws with
  | none => exact ⟨rfl, rfl⟩
  | some s => cases fails <;> exact ⟨rfl, rfl⟩

theorem onClose_keeps (c : ConnectionId) (n : Nat) (ws : Nat) (st : State)
    (h : mapGet st.clientMap c = some n)
    (hne : (st.sockets.get? ws).map (fun s => s.connectionId) ≠ some c) :
    mapGet (onClose ws st).state.clientMap c = some n ∧
      socketIds (onClose ws st).state = socketIds st := by
  unfold onClose
  cases hs : st.sockets.get? ws with
  | none => exact ⟨h, rfl⟩
  | some s =>
    have hsc : s.connectionId ≠ c := by
      intro hc
      apply hne
      rw [hs, Option.map_some', hc]
    exact ⟨by simpa [mapGet_mapDelete_ne _ _ _ hsc] using h, rfl⟩

theorem onError_keeps (c : ConnectionId) (n : Nat) (ws : Nat) (st : State)
    (h : mapGet st.clientMap c = some n)
    (hne : (st.sockets.get? ws).map (fun s => s.connectionId) ≠ some c) :
    mapGet (onError ws st).state.clientMap c = some n ∧
      socketIds (onError ws st).state = socketIds st :=
  onClose_keeps c n ws st h hne

theorem notify_keeps (env : Env) (c : ConnectionId) (n : Nat) (ws : Nat) (e : SocketEvent)
    (st : State) (h : mapGet st.clientMap c = some n)
    (ha : allowed c st (Input.socket ws e) = true) :
    mapGet (notify env ws e st).state.clientMap c = some n ∧
      socketIds (notify env ws e st).state = socketIds st := by
  cases e with
  | opened =>
    simp only [notify]
    split
    · exact ⟨h, setReadyState_socketIds st ws _⟩
    · exact ⟨h, rfl⟩
  | message d fails =>
    simp only [notify]
    split
    · exact ⟨h, rfl⟩
    · have := onMessage_keeps fails ws d st
      exact ⟨by rw [this.1]; exact h, this.2⟩
  | close =>
    have hne : (st.sockets.get? ws).map (fun s => s.connectionId) ≠ some c := by
      simpa [allowed] using ha
    simp only [notify]
    split
    · exact ⟨h, rfl⟩
    · have := onClose_keeps c n ws (setReadyState st ws ReadyState.closed) h
        (by rw [setReadyState_get]; exact hne)
      exact ⟨this.1, by rw [this.2]; exact setReadyState_socketIds st ws _⟩
  | error =>
    have hne : (st.sockets.get? ws).map (fun s => s.connectionId) ≠ some c := by
      simpa [allowed] using ha
    simp only [notify]
    split
    · exact ⟨h, rfl⟩
    · have := onError_keeps c n ws (setReadyState st ws ReadyState.closing) h
        (by rw [setReadyState_get]; exact hne)
      exact ⟨this.1, by rw [this.2]; exact setReadyState_socketIds st ws _⟩

theorem step_keeps (env : Env) (c : ConnectionId) (n : Nat) (i : Input) (st : State)
    (h : mapGet st.clientMap c = some n) (ha : allowed c st i = true) :
    mapGet (step env st i).clientMap c = some n ∧
      (socketIds (step env st i)).count c = (socketIds st).count c := by
  cases i with
  | request req => exact webhook_keeps env c n req st h ha
  | socket ws e =>
    have := notify_keeps env c n ws e st h ha
    exact ⟨this.1, by unfold step; rw [this.2]⟩

theorem run_keeps (env : Env) (c : ConnectionId) (n : Nat) (inputs : List Input) :
    ∀ st : State, mapGet st.clientMap c = some n → quiet env c st inputs = true →
      mapGet (run env inputs st).clientMap c = some n ∧
        (socketIds (run env inputs st)).count c = (socketIds st).count c := by
  induction inputs with
  | nil => intro st h _; exact ⟨h, rfl⟩
  | cons i rest ih =>
    intro st h hq
    simp only [quiet, Bool.and_eq_true] at hq
    have hs := step_keeps env c n i st h hq.1
    have hr := ih (step env st i) hs.1 hq.2
    simp only [run, List.foldl_cons] at hr ⊢
    exact ⟨hr.1, by rw [hr.2, hs.2]⟩

/-- The `error` notification for the socket a first message has just
constructed moves it to CLOSING and deletes the entry of its connection id. -/
theorem notify_error_after_create (env : Env) (c : ConnectionId) (m : Payload) (st : State)
    (h : mapGet st.clientMap c = none) :
    (notify env st.sockets.length SocketEvent.error
        (handleMessage env (messageEvent c m) st).state).state.sockets
        = st.sockets ++ [Socket.mk c ReadyState.closing] ∧
      (notify env st.sockets.length SocketEvent.error
        (handleMessage env (messageEvent c m) st).state).state.clientMap
        = mapDelete (mapSet st.clientMap c st.sockets.length) c := by
  simp [handleMessage, messageEvent, h, wsSend, notify, readyStateOf, onError, setReadyState,
    modify_length_append]

/-- After `handleDisconnection` for `c` the registry has no entry for `c` and
no fault was raised. -/
theorem handleDisconnection_get (ty : Option String) (c : ConnectionId) (m : Payload)
    (st : State) :
    mapGet (handleDisconnection { type := ty, data := some ⟨c, m⟩ } st).state.clientMap c = none ∧
      (handleDisconnection { type := ty, data := some ⟨c, m⟩ } st).threw = false := by
  cases h : mapGet st.clientMap c with
  | none => simp [handleDisconnection, h]
  | some ws => simp [handleDisconnection, h, wsClose_clientMap, mapGet_mapDelete_self]

/-! ## The dispatcher -/

/-- C1 (as amended): for every request whose body is absent or whose `type` is
missing or empty, and every state, the exported function sets the response
400 "Invalid event.", does not reject, invokes no handler and leaves the
state, `clientMap` included, unchanged. -/
theorem webhook_rejects_absent_body_or_type (env : Env) (req : Request) (st : State)
    (h : req.body = none ∨ ∃ e, req.body = some e ∧ truthy e.type = false) :
    webhook env req st =
      { res := some ⟨400, "Invalid event."⟩, threw := false, invoked := [], state := st } := by
  rcases h with h | ⟨e, he, ht⟩
  · simp [webhook, h]
  · simp [webhook, he, ht]

/-- Instance of `webhook_rejects_absent_body_or_type`: a body without `type`
over the initial state. -/
theorem webhook_rejects_absent_body_or_type_witness :
    webhook wsEnv (requestOf { type := none, data := none }) State.init =
      { res := some ⟨400, "Invalid event."⟩, threw := false, invoked := [],
        state := State.init } :=
  webhook_rejects_absent_body_or_type wsEnv (requestOf { type := none, data := none })
    State.init (Or.inr ⟨{ type := none, data := none }, rfl, rfl⟩)

/-- C1 fails as stated: a `webPubSub.connection` event whose `data` has no
`connectionId` is not answered with 400; `handleConnection` is invoked and the
response is 200. -/
theorem webhook_missing_connectionId_reaches_handler :
    (webhook wsEnv (requestOf connectionEventNoId) State.init).res
        = some ⟨200, "Event processed."⟩ ∧
      (webhook wsEnv (requestOf connectionEventNoId) State.init).invoked
        = [Handler.handleConnection] := by
  decide

/-- C2 fails on the code: the first message for client "A" over the initial
state, with the `send` of `ws` (which throws on a CONNECTING socket), makes
`handleMessage` throw after the socket was stored; the exported function
rejects and `context.res` is never assigned. -/
theorem webhook_first_message_leaves_no_response :
    webhook wsEnv (requestOf (messageEvent (some "A") (some "hello"))) State.init =
      { res := none, threw := true, invoked := [Handler.handleMessage],
        state :=
          { clientMap := [(some "A", 0)],
            sockets := [Socket.mk (some "A") ReadyState.connecting],
            sendCalls := [(0, some "hello")],
            delivered := [],
            closeCalls := [],
            fabricCalls := [] } } := by
  decide

/-- C10 (as amended): for every event whose `type` is a non-empty string other
than the three recognised tags, and every state, the exported function invokes
no handler and leaves the state unchanged (registry, sockets, recorded send
and close calls); when the `WebPubSubServiceClient` is constructed without a
fault, it answers 200 "Event processed." and does not reject. -/
theorem webhook_unrecognised_type (env : Env) (t : String) (d : Option Data) (st : State)
    (hne : t ≠ "")
    (h1 : t ≠ "webPubSub.connection") (h2 : t ≠ "webPubSub.disconnected")
    (h3 : t ≠ "webPubSub.message") :
    (webhook env (requestOf { type := some t, data := d }) st).invoked = [] ∧
      (webhook env (requestOf { type := some t, data := d }) st).state = st ∧
      (env.clientThrows = false →
        webhook env (requestOf { type := some t, data := d }) st =
          { res := some ⟨200, "Event processed."⟩, threw := false, invoked := [],
            state := st }) := by
  cases hc : env.clientThrows <;> simp [webhook, requestOf, truthy, hne, h1, h2, h3, hc]

/-- Instance of `webhook_unrecognised_type` at the tag "webPubSub.unknown", with
the settings present. -/
theorem webhook_unrecognised_type_witness :
    wsEnv.clientThrows = false ∧
      webhook wsEnv (requestOf { type := some "webPubSub.unknown", data := none }) State.init =
        { res := some ⟨200, "Event processed."⟩, threw := false, invoked := [],
          state := State.init } :=
  ⟨rfl, (webhook_unrecognised_type wsEnv "webPubSub.unknown" none State.init
    (by decide) (by decide) (by decide) (by decide)).2.2 rfl⟩

/-- C10 fails as stated: an event whose `type` is present but is the empty
string is none of the three tags, yet, with the settings present, it is
answered with 400, not 200. -/
theorem webhook_empty_type_is_rejected :
    emptyTypeEvent.type ≠ none ∧
      emptyTypeEvent.type ≠ some "webPubSub.connection" ∧
      emptyTypeEvent.type ≠ some "webPubSub.disconnected" ∧
      emptyTypeEvent.type ≠ some "webPubSub.message" ∧
      (webhook wsEnv (requestOf emptyTypeEvent) State.init).res
        = some ⟨400, "Invalid event."⟩ := by
  decide

/-! ## Teardown -/

/-- C4: for every connection id `c` and every state, after `handleDisconnection`
has handled an event for `c`, `clientMap` has no entry for `c` and no fault was
raised; `close` is called on the socket that was stored for `c` and on no
other, and when nothing was stored the state is unchanged (nothing is closed). -/
theorem handleDisconnection_removes_entry (ty : Option String) (c : ConnectionId) (m : Payload)
    (st : State) :
    mapGet (handleDisconnection { type := ty, data := some ⟨c, m⟩ } st).state.clientMap c = none ∧
      (handleDisconnection { type := ty, data := some ⟨c, m⟩ } st).threw = false ∧
      (handleDisconnection { type := ty, data := some ⟨c, m⟩ } st).state.closeCalls
        = st.closeCalls ++ (mapGet st.clientMap c).toList ∧
      (mapGet st.clientMap c = none →
        (handleDisconnection { type := ty, data := some ⟨c, m⟩ } st).state = st) := by
  cases h : mapGet st.clientMap c with
  | none => simp [handleDisconnection, h]
  | some ws =>
    simp [handleDisconnection, h, wsClose_clientMap, wsClose_closeCalls, mapGet_mapDelete_self]

/-- Instance of `handleDisconnection_removes_entry`: a disconnection for "A"
over the initial state, where nothing is stored, changes nothing. -/
theorem handleDisconnection_removes_entry_witness :
    mapGet State.init.clientMap (some "A") = none ∧
      (handleDisconnection (disconnectedEvent (some "A")) State.init).state = State.init :=
  ⟨rfl, (handleDisconnection_removes_entry (some "webPubSub.disconnected") (some "A") none
    State.init).2.2.2 rfl⟩

/-- C9: for every connection id `c` and every state, handling a second
disconnected event for `c` right after a first one raises no fault and leaves
the whole state as the first left it: same registry, same recorded `close`
calls, so the second handling closes nothing. -/
theorem handleDisconnection_idempotent (ty ty2 : Option String) (c : ConnectionId)
    (m m2 : Payload) (st : State) :
    handleDisconnection { type := ty2, data := some ⟨c, m2⟩ }
        (handleDisconnection { type := ty, data := some ⟨c, m⟩ } st).state =
      { state := (handleDisconnection { type := ty, data := some ⟨c, m⟩ } st).state,
        threw := false } ∧
      (handleDisconnection { type := ty, data := some ⟨c, m⟩ } st).threw = false := by
  have h := (handleDisconnection_get ty c m st).1
  have h2 := (handleDisconnection_get ty c m st).2
  refine ⟨?_, h2⟩
  simp only [handleDisconnection] at h ⊢
  simp [h]

/-! ## Sessions -/

/-- C3 fails on the code: after `staleCloseTrace` the second socket built for
"A" is still CONNECTING, but the `close` callback of the first socket has
deleted the entry of "A", so the registry no longer holds the live socket and
the registry invariant is broken. -/
theorem stale_close_removes_live_entry :
    (run wsEnv staleCloseTrace State.init).sockets =
        [Socket.mk (some "A") ReadyState.closed, Socket.mk (some "A") ReadyState.connecting] ∧
      mapGet (run wsEnv staleCloseTrace State.init).clientMap (some "A") = none ∧
      mapGet (run wsEnv (staleCloseTrace.take 4) State.init).clientMap (some "A") = some 1 ∧
      registryInvariant (run wsEnv (staleCloseTrace.take 4) State.init) = true ∧
      registryInvariant (run wsEnv staleCloseTrace State.init) = false := by
  decide

/-- C7: for every socket `ws` whose callbacks closed over connection id
`s.connectionId` and every payload `d`, the `message` callback records exactly
one `sendToConnection` call, addressed to that connection id, carrying `d`
unchanged with content type "application/json"; whether or not the call
fails, the callback does not throw and `clientMap`, the sockets and the
recorded `send` and `close` calls are unchanged. -/
theorem onMessage_forwards_once (fails : Bool) (ws : Nat) (d : String) (st : State) (s : Socket)
    (h : st.sockets.get? ws = some s) :
    onMessage fails ws d st =
      { state := { st with
          fabricCalls := st.fabricCalls ++ [FabricSend.mk s.connectionId d "application/json"] },
        threw := false } := by
  unfold onMessage
  rw [h]
  cases fails <;> simp [sendToConnection]

/-- Instance of `onMessage_forwards_once`: the socket that the first message
for "A" constructs relays an upstream payload to "A", here with a failing
`sendToConnection`. -/
theorem onMessage_forwards_once_witness :
    (handleMessage wsEnv (messageEvent (some "A") (some "hello")) State.init).state.sockets.get? 0
        = some (Socket.mk (some "A") ReadyState.connecting) ∧
      onMessage true 0 "delta"
          (handleMessage wsEnv (messageEvent (some "A") (some "hello")) State.init).state =
        { state := { (handleMessage wsEnv (messageEvent (some "A") (some "hello"))
              State.init).state with
            fabricCalls :=
              (handleMessage wsEnv (messageEvent (some "A") (some "hello"))
                  State.init).state.fabricCalls
                ++ [FabricSend.mk (Socket.mk (some "A") ReadyState.connecting).connectionId
                      "delta" "application/json"] },
          threw := false } :=
  ⟨by decide,
    onMessage_forwards_once true 0 "delta"
      (handleMessage wsEnv (messageEvent (some "A") (some "hello")) State.init).state
      (Socket.mk (some "A") ReadyState.connecting) (by decide)⟩

/-- C5 (as amended): for every connection id `c` without an entry, the first
message for `c` constructs one CONNECTING socket for `c` and stores it; after
any further inputs, each handled to completion, among which there is no
disconnected event for `c` and no `close` or `error` notification of a socket
constructed for `c`, that socket is still the entry of `c` and it is the only
socket constructed for `c` since the start; every later message for `c` then
finds it, constructs nothing, leaves `clientMap` unchanged and calls `send` on
it. -/
theorem one_session_until_teardown (env : Env) (c : ConnectionId) (m m2 : Payload)
    (inputs : List Input) (st : State) (h : mapGet st.clientMap c = none)
    (hq : quiet env c (handleMessage env (messageEvent c m) st).state inputs = true) :
    (handleMessage env (messageEvent c m) st).state.sockets
        = st.sockets ++ [Socket.mk c ReadyState.connecting] ∧
      mapGet (handleMessage env (messageEvent c m) st).state.clientMap c
        = some st.sockets.length ∧
      mapGet (run env inputs (handleMessage env (messageEvent c m) st).state).clientMap c
        = some st.sockets.length ∧
      (socketIds (run env inputs (handleMessage env (messageEvent c m) st).state)).count c
        = (socketIds st).count c + 1 ∧
      (handleMessage env (messageEvent c m2)
          (run env inputs (handleMessage env (messageEvent c m) st).state)).state.sockets
        = (run env inputs (handleMessage env (messageEvent c m) st).state).sockets ∧
      (handleMessage env (messageEvent c m2)
          (run env inputs (handleMessage env (messageEvent c m) st).state)).state.clientMap
        = (run env inputs (handleMessage env (messageEvent c m) st).state).clientMap ∧
      (handleMessage env (messageEvent c m2)
          (run env inputs (handleMessage env (messageEvent c m) st).state)).state.sendCalls
        = (run env inputs (handleMessage env (messageEvent c m) st).state).sendCalls
            ++ [(st.sockets.length, m2)] := by
  have h0 := handleMessage_of_no_entry env c m st h
  have hget : mapGet (handleMessage env (messageEvent c m) st).state.clientMap c
      = some st.sockets.length := by
    rw [h0.2.1]; exact mapGet_mapSet_self _ _ _
  have hcount : (socketIds (handleMessage env (messageEvent c m) st).state).count c
      = (socketIds st).count c + 1 := by
    simp [socketIds, h0.1, List.count_append]
  have hrun := run_keeps env c st.sockets.length inputs _ hget hq
  have hlater := handleMessage_of_entry env c m2 st.sockets.length _ hrun.1
  exact ⟨h0.1, hget, hrun.1, by rw [hrun.2, hcount], hlater.1, hlater.2.1, hlater.2.2⟩

/-- Instance of `one_session_until_teardown`: client "A" over the initial
state; after the first message the socket opens, relays an upstream payload,
and a second message for "A" arrives through the exported function. -/
theorem one_session_until_teardown_witness :
    mapGet State.init.clientMap (some "A") = none ∧
      quiet wsEnv (some "A")
        (handleMessage wsEnv (messageEvent (some "A") (some "hello")) State.init).state
        [Input.socket 0 SocketEvent.opened, Input.socket 0 (SocketEvent.message "delta" false),
          Input.request (requestOf (messageEvent (some "A") (some "again")))] = true ∧
      (socketIds (run wsEnv
        [Input.socket 0 SocketEvent.opened, Input.socket 0 (SocketEvent.message "delta" false),
          Input.request (requestOf (messageEvent (some "A") (some "again")))]
        (handleMessage wsEnv (messageEvent (some "A") (some "hello")) State.init).state)).count
          (some "A")
        = (socketIds State.init).count (some "A") + 1 :=
  ⟨rfl, by decide,
    (one_session_until_teardown wsEnv (some "A") (some "hello") (some "more")
      [Input.socket 0 SocketEvent.opened, Input.socket 0 (SocketEvent.message "delta" false),
        Input.request (requestOf (messageEvent (some "A") (some "again")))]
      State.init rfl (by decide)).2.2.2.1⟩

/-- C5 fails as stated: over the initial state, two message events for "A" with
no disconnected event in between, but with the `error` notification of the
first socket handled between them, construct two sockets for "A". -/
theorem error_between_messages_creates_second_session :
    mapGet State.init.clientMap (some "A") = none ∧
      (run wsEnv errorBetweenTrace State.init).sockets =
        [Socket.mk (some "A") ReadyState.closing, Socket.mk (some "A") ReadyState.connecting] ∧
      mapGet (run wsEnv errorBetweenTrace State.init).clientMap (some "A") = some 1 := by
  decide

/-- C6 fails on the code: over the initial state the first message for "A" is
handed to `send` while the socket just constructed is CONNECTING; `send`
throws and nothing is delivered upstream. A second message right after it
fares the same, and when the socket opens before the second message, the
upstream receives the initial event and "again" but never "hello". -/
theorem first_message_is_not_delivered :
    handleMessage wsEnv (messageEvent (some "A") (some "hello")) State.init =
        { state :=
            { clientMap := [(some "A", 0)],
              sockets := [Socket.mk (some "A") ReadyState.connecting],
              sendCalls := [(0, some "hello")],
              delivered := [],
              closeCalls := [],
              fabricCalls := [] },
          threw := true } ∧
      (runMessages wsEnv (some "A") [some "hello", some "again"] State.init).delivered = [] ∧
      (run wsEnv openBetweenTrace State.init).delivered
        = [(0, some initialEvent), (0, some "again")] := by
  decide

/-! ## Failure to open -/

/-- C8 (as amended): for every connection id `c` without an entry, the first
message for `c` stores the socket it constructs at once, while that socket is
still CONNECTING; when the socket then reports an `error` (the connection
failed to open), the callback deletes the entry of `c`, so the registry holds
nothing for `c` once that notification is handled, and the next message for
`c` constructs a second socket from scratch and stores it. -/
theorem failed_open_evicted_on_error (env : Env) (c : ConnectionId) (m m2 : Payload) (st : State)
    (h : mapGet st.clientMap c = none) :
    mapGet (handleMessage env (messageEvent c m) st).state.clientMap c
        = some st.sockets.length ∧
      readyStateOf (handleMessage env (messageEvent c m) st).state st.sockets.length
        = ReadyState.connecting ∧
      mapGet (notify env st.sockets.length SocketEvent.error
          (handleMessage env (messageEvent c m) st).state).state.clientMap c = none ∧
      (handleMessage env (messageEvent c m2)
          (notify env st.sockets.length SocketEvent.error
            (handleMessage env (messageEvent c m) st).state).state).state.sockets
        = st.sockets ++ [Socket.mk c ReadyState.closing, Socket.mk c ReadyState.connecting] ∧
      mapGet (handleMessage env (messageEvent c m2)
          (notify env st.sockets.length SocketEvent.error
            (handleMessage env (messageEvent c m) st).state).state).state.clientMap c
        = some (st.sockets.length + 1) := by
  have h0 := handleMessage_of_no_entry env c m st h
  have h1 := notify_error_after_create env c m st h
  have hnone : mapGet (notify env st.sockets.length SocketEvent.error
      (handleMessage env (messageEvent c m) st).state).state.clientMap c = none := by
    rw [h1.2]; exact mapGet_mapDelete_self _ _
  have h2 := handleMessage_of_no_entry env c m2 _ hnone
  refine ⟨?_, ?_, hnone, ?_, ?_⟩
  · rw [h0.2.1]; exact mapGet_mapSet_self _ _ _
  · simp [handleMessage, messageEvent, h, wsSend, readyStateOf]
  · rw [h2.1, h1.1]; simp
  · rw [h2.2.1, h1.1]
    simpa using mapGet_mapSet_self _ c (st.sockets.length + 1)

/-- Instance of `failed_open_evicted_on_error`: client "A" over the initial state. -/
theorem failed_open_evicted_on_error_witness :
    mapGet State.init.clientMap (some "A") = none ∧
      mapGet (notify wsEnv State.init.sockets.length SocketEvent.error
          (handleMessage wsEnv (messageEvent (some "A") (some "hello"))
            State.init).state).state.clientMap (some "A") = none :=
  ⟨rfl, (failed_open_evicted_on_error wsEnv (some "A") (some "hello") (some "again")
    State.init rfl).2.2.1⟩

/-- C8 fails as stated: once the first message for "A" has been handled the
registry already holds the new socket although its connection is not usable
(it is CONNECTING); the entry is still there when the socket goes on to report
that it failed to open, and only that `error` notification removes it. -/
theorem entry_stored_before_connection_usable :
    mapGet (handleMessage wsEnv (messageEvent (some "A") (some "hello"))
        State.init).state.clientMap (some "A") = some 0 ∧
      readyStateOf (handleMessage wsEnv (messageEvent (some "A") (some "hello"))
        State.init).state 0 = ReadyState.connecting ∧
      readyStateOf (notify wsEnv 0 SocketEvent.error
        (handleMessage wsEnv (messageEvent (some "A") (some "hello"))
          State.init).state).state 0 = ReadyState.closing := by
  decide

end Webhook
